import Mathlib

/-!
Shallow embedding of `src/infrastructure/update-cloudfront-cert.py`.

The script is a single linear flow: read an environment variable, list
distributions via the AWS CLI, resolve one by its comment, fetch its
configuration and ETag, mutate two fields (ViewerCertificate, Aliases)
in memory, dump the result to a fixed temp file, and submit it with the
ETag as the if-match precondition, reporting the parsed response.

JSON documents are modelled as an inductive `Json`; Python dicts become
ordered association lists (insertion order preserved, as in Python).
The three external subprocess calls are modelled by a `World` record
supplying each call's result; the whole script becomes the pure function
`runScript : World → Outcome`, where `Outcome` records the exit code,
the trace of network calls issued, the lines printed, and the temp-file
state.
-/

/-- JSON values. Python dicts are association lists in insertion order. -/
inductive Json where
  | null : Json
  | bool : Bool → Json
  | num : Int → Json
  | str : String → Json
  | arr : List Json → Json
  | obj : List (String × Json) → Json
deriving Repr

/-- Python dict lookup `d[k]` restricted to the success case: the value at
the first matching key, scanning in insertion order. -/
def getVal (obj : List (String × Json)) (k : String) : Option Json :=
  match obj with
  | [] => none
  | (k', v) :: rest => if k' = k then some v else getVal rest k

/-- Python dict assignment `d[k] = v`: if the key is present, its value is
replaced in place (position kept); otherwise the pair is appended at the
end, as Python insertion order dictates. -/
def setKey (obj : List (String × Json)) (k : String) (v : Json) :
    List (String × Json) :=
  match obj with
  | [] => [(k, v)]
  | (k', v') :: rest =>
      if k' = k then (k, v) :: rest else (k', v') :: setKey rest k v

-- Constants compiled into the script (lines 13-14 of the source).
def DISTRIBUTION_COMMENT : String := "sharespace frontend distribution"

def DOMAIN_NAMES : List String :=
  ["itsonlycastlesburning.com", "*.itsonlycastlesburning.com"]

/-- The replacement ViewerCertificate block (source lines 67-72). -/
def viewerCertificateBlock (arn : String) : Json :=
  Json.obj
    [("ACMCertificateArn", Json.str arn),
     ("SSLSupportMethod", Json.str "sni-only"),
     ("MinimumProtocolVersion", Json.str "TLSv1.2_2021"),
     ("CertificateSource", Json.str "acm")]

/-- The replacement Aliases block (source lines 75-78). -/
def aliasesBlock (domains : List String) : Json :=
  Json.obj
    [("Quantity", Json.num (domains.length : Int)),
     ("Items", Json.arr (domains.map Json.str))]

/-- The in-memory mutation step (source lines 67-78): two dict
assignments on the fetched configuration document. -/
def mutateConfig (config : List (String × Json)) (arn : String)
    (domains : List String) : List (String × Json) :=
  setKey (setKey config "ViewerCertificate" (viewerCertificateBlock arn))
    "Aliases" (aliasesBlock domains)

-- Basic lemmas about the association-list dictionary.

theorem getVal_setKey_self (obj : List (String × Json)) (k : String)
    (v : Json) : getVal (setKey obj k v) k = some v := by
  induction obj with
  | nil => simp [setKey, getVal]
  | cons p rest ih =>
      obtain ⟨k', v'⟩ := p
      by_cases h : k' = k
      · simp [setKey, h, getVal]
      · simp [setKey, h, getVal, ih]

theorem getVal_setKey_ne (obj : List (String × Json)) (k k' : String)
    (v : Json) (h : k' ≠ k) : getVal (setKey obj k v) k' = getVal obj k' := by
  induction obj with
  | nil => simp [setKey, getVal, Ne.symm h]
  | cons p rest ih =>
      obtain ⟨k₀, v₀⟩ := p
      by_cases h0 : k₀ = k
      · subst h0
        simp [setKey, getVal, Ne.symm h]
      · by_cases h1 : k₀ = k'
        · simp [setKey, getVal, h0, h1, h]
        · simp [setKey, getVal, h0, h1, ih]

/-- Python repr of a JSON value, as f-string interpolation renders
containers (str() of a list or dict is its repr). -/
def Json.reprD : Json → String
  | .null => "None"
  | .bool b => if b then "True" else "False"
  | .num n => toString n
  | .str s => "'" ++ s ++ "'"
  | .arr xs => "[" ++ String.intercalate ", " (xs.attach.map (fun x => Json.reprD x.1)) ++ "]"
  | .obj fs => "\x7b" ++ String.intercalate ", " (fs.attach.map (fun p => "'" ++ p.1.1 ++ "': " ++ Json.reprD p.1.2)) ++ "\x7d"
decreasing_by
  · simp_wf
    have := List.sizeOf_lt_of_mem x.2
    omega
  · simp_wf
    rcases p with ⟨⟨k, v⟩, hm⟩
    have := List.sizeOf_lt_of_mem hm
    simp only [Prod.mk.sizeOf_spec] at this
    dsimp only
    omega

/-- Python str() of a JSON value as an f-string renders it: a string is
shown bare, anything else by its repr. -/
def Json.display : Json → String
  | .str s => s
  | j => Json.reprD j

/-- Python repr of a list of strings, as printed on source line 82. -/
def pyListStr (xs : List String) : String :=
  "[" ++ String.intercalate ", " (xs.map (fun s => "'" ++ s ++ "'")) ++ "]"

/-- An exception raised by one step of the script. `calledProcess` is
subprocess.CalledProcessError from a check=True run: command display,
return code, captured standard-error stream. `other` is any other
exception (JSON parse error, KeyError, ...), carrying its str(). -/
inductive PyErr where
  | calledProcess : String → Int → String → PyErr
  | other : String → PyErr
deriving Repr, DecidableEq

/-- Python str(e). For CalledProcessError this is the generic message
naming the command and its exit status; it does NOT contain the captured
standard-error stream (Python quotes the command; the quotes are
immaterial here). For other exceptions it is the message they carry. -/
def PyErr.toStr : PyErr → String
  | .calledProcess cmd rc _ => "Command " ++ cmd ++ " returned non-zero exit status " ++ toString rc ++ "."
  | .other m => m

/-- One entry of the list-distributions response, with the two fields the
script reads (source lines 35-37). -/
structure DistSummary where
  Id : String
  Comment : String
deriving Repr, DecidableEq

/-- The lookup loop (source lines 34-38): scan the items in returned
order, take the Id of the first entry whose Comment equals the target. -/
def resolveDist : List DistSummary → Option String
  | [] => none
  | d :: rest =>
      if d.Comment = DISTRIBUTION_COMMENT then some d.Id else resolveDist rest

/-- Python truthiness of `os.environ.get` results and of the loop result:
`not x` is true for None and for the empty string. -/
def strTruthy : Option String → Bool
  | none => false
  | some s => !s.isEmpty

/-- Python dict subscription `j[k]`: KeyError when the key is absent
(str of a KeyError is the quoted key), TypeError on a non-dict. -/
def pyGet (j : Json) (k : String) : Except PyErr Json :=
  match j with
  | .obj fs =>
      match getVal fs k with
      | some v => Except.ok v
      | none => Except.error (PyErr.other ("'" ++ k ++ "'"))
  | _ => Except.error (PyErr.other "TypeError: value is not subscriptable")

/-- Python `.split` on a value: AttributeError unless it is a string. -/
def pyGetStr (j : Json) : Except PyErr String :=
  match j with
  | .str s => Except.ok s
  | _ => Except.error (PyErr.other "AttributeError: object has no attribute split")

/-- The fixed temporary path of source line 85. -/
def TEMP_PATH : String := "/tmp/dist-config-updated.json"

/-- One network call issued by the script, with the arguments passed to
the AWS CLI that matter to the claims. -/
inductive Call where
  | listDistributions : Call
  | getDistributionConfig : String → Call
  | updateDistribution : String → String → String → Call
deriving Repr, DecidableEq

/-- The environment one run of the script executes against: the
ACM_CERTIFICATE_ARN variable (none = unset) and the result of each of
the three external calls, errors included. -/
structure World where
  certArn : Option String
  listResult : Except PyErr (List DistSummary)
  fetchResult : Except PyErr (List (String × Json) × String)
  updateResult : Except PyErr Json

/-- What one run of the script did: its exit code (0 only on full
completion), the network calls issued in order, the lines printed, and
the temp file content (none while unwritten; the script never removes
it). -/
structure Outcome where
  exitCode : Nat
  calls : List Call
  output : List String
  tempFile : Option (List (String × Json))
deriving Repr

/-- The post-update reporting (source lines 103-115): each print line
evaluates dict lookups; the first failing lookup aborts with the lines
printed so far. The DNS-instruction loop reuses the DomainName value,
whose lookup already succeeded, so re-evaluating it cannot fail. -/
def report (updated : Json) (domains : List String) : List String × Option PyErr :=
  let l0 := ["✅ Distribution updated successfully!", "\n📊 Distribution details:"]
  match pyGet updated "Distribution" >>= fun d => pyGet d "Id" with
  | .error e => (l0, some e)
  | .ok idJ =>
    let l1 := l0 ++ ["   ID: " ++ idJ.display]
    match pyGet updated "Distribution" >>= fun d => pyGet d "DomainName" with
    | .error e => (l1, some e)
    | .ok dnJ =>
      let l2 := l1 ++ ["   Domain: " ++ dnJ.display]
      match pyGet updated "Distribution" >>= fun d =>
          pyGet d "DistributionConfig" >>= fun c =>
          pyGet c "Aliases" >>= fun a => pyGet a "Items" with
      | .error e => (l2, some e)
      | .ok itemsJ =>
        let l3 := l2 ++ ["   Aliases: " ++ itemsJ.display]
        match pyGet updated "Distribution" >>= fun d =>
            pyGet d "DistributionConfig" >>= fun c =>
            pyGet c "ViewerCertificate" >>= fun v =>
            pyGet v "ACMCertificateArn" >>= pyGetStr with
        | .error e => (l3, some e)
        | .ok arnS =>
          let l4 := l3 ++ ["   Certificate: " ++ (arnS.splitOn "/").getLastD ""]
          match pyGet updated "Distribution" >>= fun d => pyGet d "Status" with
          | .error e => (l4, some e)
          | .ok stJ =>
            let l5 := l4 ++
              ["\n⏳ Status: " ++ stJ.display, "\n📝 Next steps:",
               "   1. Add CNAME records in your DNS provider:"]
            let l6 := l5 ++ domains.map (fun d => "      " ++ d ++ " → " ++ dnJ.display)
            (l6 ++ ["   2. Wait for DNS propagation (5-15 minutes)",
                    "   3. Distribution will complete deployment (may take 10-15 minutes)"],
             none)

/-- The whole script as a pure function of its environment, faithful to
the source top to bottom: the CERT_ARN truthiness guard (lines 16-18),
the header prints (lines 20-22), the listing call and lookup loop with
its own truthiness guard (lines 25-47), the fetch (lines 50-64), the
in-memory mutation (lines 67-78), the temp-file dump (lines 85-86), the
update call with the if-match ETag (lines 89-100), and the reporting
with its two exception handlers (lines 101-122). -/
def runScript (w : World) : Outcome :=
  if !strTruthy w.certArn then
    { exitCode := 1, calls := [],
      output := ["❌ Error: ACM_CERTIFICATE_ARN environment variable not set"],
      tempFile := none }
  else
    let arn := w.certArn.getD ""
    let header :=
      ["🔧 Updating CloudFront distribution with certificate...",
       "   Certificate ARN: " ++ arn,
       "   Domain names: " ++ String.intercalate ", " DOMAIN_NAMES]
    match w.listResult with
    | .error e =>
        { exitCode := 1, calls := [Call.listDistributions],
          output := header ++ ["❌ Error listing distributions: " ++ e.toStr],
          tempFile := none }
    | .ok items =>
        let notFound : Outcome :=
          { exitCode := 1, calls := [Call.listDistributions],
            output := header ++
              ["❌ Error: Could not find distribution with comment '" ++
               DISTRIBUTION_COMMENT ++ "'"],
            tempFile := none }
        match resolveDist items with
        | none => notFound
        | some id =>
          if id.isEmpty then notFound
          else
            let afterFind := header ++ ["✅ Found distribution ID: " ++ id]
            match w.fetchResult with
            | .error e =>
                { exitCode := 1,
                  calls := [Call.listDistributions, Call.getDistributionConfig id],
                  output := afterFind ++
                    ["❌ Error getting distribution config: " ++ e.toStr],
                  tempFile := none }
            | .ok (config, etag) =>
                let afterFetch := afterFind ++
                  ["✅ Retrieved current distribution config (ETag: " ++ etag ++ ")"]
                let config2 := mutateConfig config arn DOMAIN_NAMES
                let afterMutate := afterFetch ++
                  ["✅ Updated configuration:",
                   "   ViewerCertificate: ACM with SNI-only",
                   "   Aliases: " ++ pyListStr DOMAIN_NAMES]
                let calls3 :=
                  [Call.listDistributions, Call.getDistributionConfig id,
                   Call.updateDistribution id ("file://" ++ TEMP_PATH) etag]
                let beforeUpdate := afterMutate ++ ["\n🚀 Updating CloudFront distribution..."]
                match w.updateResult with
                | .error (PyErr.calledProcess _ _ se) =>
                    { exitCode := 1, calls := calls3,
                      output := beforeUpdate ++ ["❌ Error updating distribution: " ++ se],
                      tempFile := some config2 }
                | .error (PyErr.other m) =>
                    { exitCode := 1, calls := calls3,
                      output := beforeUpdate ++ ["❌ Error: " ++ m],
                      tempFile := some config2 }
                | .ok updated =>
                    match report updated DOMAIN_NAMES with
                    | (ls, none) =>
                        { exitCode := 0, calls := calls3,
                          output := beforeUpdate ++ ls, tempFile := some config2 }
                    | (ls, some e) =>
                        { exitCode := 1, calls := calls3,
                          output := beforeUpdate ++ ls ++ ["❌ Error: " ++ e.toStr],
                          tempFile := some config2 }

-- ======================================================================
-- Claim theorems
-- ======================================================================

/-- C1: for every configuration document, certificate ARN and domain
list, the mutation step leaves every key other than "ViewerCertificate"
and "Aliases" with exactly the value it had in the input document: all
unrelated fields are written back unchanged. -/
theorem mutateConfig_frame (config : List (String × Json)) (arn : String)
    (domains : List String) (k : String)
    (h1 : k ≠ "ViewerCertificate") (h2 : k ≠ "Aliases") :
    getVal (mutateConfig config arn domains) k = getVal config k := by
  unfold mutateConfig
  rw [getVal_setKey_ne _ _ _ _ h2, getVal_setKey_ne _ _ _ _ h1]

/-- Witness for C1 at a concrete document and key. -/
theorem mutateConfig_frame_witness :
    ("CallerReference" ≠ "ViewerCertificate" ∧ "CallerReference" ≠ "Aliases") ∧
    getVal (mutateConfig [("CallerReference", Json.str "ref-1")] "arn:x" ["d.com"])
        "CallerReference" =
      getVal [("CallerReference", Json.str "ref-1")] "CallerReference" :=
  ⟨⟨by decide, by decide⟩,
   mutateConfig_frame [("CallerReference", Json.str "ref-1")] "arn:x" ["d.com"]
     "CallerReference" (by decide) (by decide)⟩

/-- C2: after the mutation step the ViewerCertificate block is exactly
the four-field block built from the given ARN — SSLSupportMethod
"sni-only" ("SNI-only = true"), MinimumProtocolVersion "TLSv1.2_2021"
(the fixed modern TLS floor) and CertificateSource "acm" (source = ACM) —
regardless of the block's prior contents. -/
theorem mutateConfig_viewerCertificate (config : List (String × Json))
    (arn : String) (domains : List String) :
    getVal (mutateConfig config arn domains) "ViewerCertificate" =
      some (Json.obj
        [("ACMCertificateArn", Json.str arn),
         ("SSLSupportMethod", Json.str "sni-only"),
         ("MinimumProtocolVersion", Json.str "TLSv1.2_2021"),
         ("CertificateSource", Json.str "acm")]) := by
  unfold mutateConfig
  rw [getVal_setKey_ne _ _ _ _ (by decide), getVal_setKey_self]
  rfl

/-- C3: after the mutation step the Aliases block has Quantity equal to
the length of the domain list and Items equal to the domain list in the
given order, replacing whatever aliases were present before. -/
theorem mutateConfig_aliases (config : List (String × Json)) (arn : String)
    (domains : List String) :
    getVal (mutateConfig config arn domains) "Aliases" =
      some (Json.obj
        [("Quantity", Json.num (domains.length : Int)),
         ("Items", Json.arr (domains.map Json.str))]) := by
  unfold mutateConfig
  rw [getVal_setKey_self]
  rfl

/-- C5: when the ACM_CERTIFICATE_ARN environment variable is absent, the
run exits with code 1 before issuing any network call and before any
side effect (no call in the trace, no temp file, only the error line). -/
theorem missing_cert_env_halts (w : World) (h : w.certArn = none) :
    (runScript w).exitCode = 1 ∧ (runScript w).calls = [] ∧
    (runScript w).tempFile = none ∧
    (runScript w).output =
      ["❌ Error: ACM_CERTIFICATE_ARN environment variable not set"] := by
  simp [runScript, h, strTruthy]

/-- A world whose only special feature is the unset variable. -/
def unsetEnvWorld : World :=
  { certArn := none,
    listResult := Except.ok [⟨"E123", "sharespace frontend distribution"⟩],
    fetchResult := Except.ok ([("CallerReference", Json.str "ref-1")], "E_OLD"),
    updateResult := Except.ok Json.null }

/-- Witness for C5 at a concrete world. -/
theorem missing_cert_env_halts_witness :
    unsetEnvWorld.certArn = none ∧
    ((runScript unsetEnvWorld).exitCode = 1 ∧
     (runScript unsetEnvWorld).calls = [] ∧
     (runScript unsetEnvWorld).tempFile = none ∧
     (runScript unsetEnvWorld).output =
       ["❌ Error: ACM_CERTIFICATE_ARN environment variable not set"]) :=
  ⟨rfl, missing_cert_env_halts unsetEnvWorld rfl⟩

/-- C9: an empty-string value of ACM_CERTIFICATE_ARN is treated exactly
like absence — the whole run (exit code, calls, output, temp file) is
identical to the run with the variable unset, because the guard tests
truthiness of the string, not presence of the variable. -/
theorem empty_cert_env_like_absent (w : World) (h : w.certArn = some "") :
    runScript w = runScript { w with certArn := none } := by
  have hT : strTruthy (some "") = false := by decide
  have hN : strTruthy (none : Option String) = false := rfl
  simp [runScript, h, hT, hN]

/-- Witness for C9 at a concrete world. -/
theorem empty_cert_env_like_absent_witness :
    { unsetEnvWorld with certArn := some "" }.certArn = some "" ∧
    runScript { unsetEnvWorld with certArn := some "" } =
      runScript { { unsetEnvWorld with certArn := some "" } with certArn := none } :=
  ⟨rfl, empty_cert_env_like_absent { unsetEnvWorld with certArn := some "" } rfl⟩

-- Helper: a listing in which no comment matches resolves to nothing.
theorem resolveDist_eq_none (items : List DistSummary)
    (h : ∀ d ∈ items, d.Comment ≠ DISTRIBUTION_COMMENT) :
    resolveDist items = none := by
  induction items with
  | nil => rfl
  | cons d rest ih =>
      have hd := h d (List.mem_cons_self d rest)
      rw [resolveDist, if_neg hd]
      exact ih (fun x hx => h x (List.mem_cons_of_mem d hx))

-- Helper: a non-empty ARN string passes the truthiness guard.
theorem strTruthy_some_true (s : String) (h : s ≠ "") :
    strTruthy (some s) = true := by
  have hE : s.isEmpty = false := by
    rw [Bool.eq_false_iff]
    intro hT
    exact h ((String.isEmpty_iff s).mp hT)
  simp [strTruthy, hE]

-- Helper: the lookup loop agrees with List.find? on the comment test.
theorem resolveDist_eq_find (items : List DistSummary) :
    resolveDist items =
      (items.find? (fun d => d.Comment == DISTRIBUTION_COMMENT)).map DistSummary.Id := by
  induction items with
  | nil => rfl
  | cons d rest ih =>
      by_cases hm : d.Comment = DISTRIBUTION_COMMENT
      · simp [resolveDist, hm]
      · simp [resolveDist, hm, ih]

/-- C4: the resolver scans the listing in returned order and yields the
identifier of the first entry whose comment equals the fixed target
comment (it agrees with List.find? on the comment predicate); and when
zero entries match, the run exits with code 1 having issued only the
listing call — no fetch or update call follows. -/
theorem resolver_first_match_and_miss (w : World) (arn : String)
    (items : List DistSummary)
    (hc : w.certArn = some arn) (hne : arn ≠ "")
    (hl : w.listResult = Except.ok items) :
    resolveDist items =
      (items.find? (fun d => d.Comment == DISTRIBUTION_COMMENT)).map DistSummary.Id ∧
    ((∀ d ∈ items, d.Comment ≠ DISTRIBUTION_COMMENT) →
      (runScript w).exitCode = 1 ∧ (runScript w).calls = [Call.listDistributions]) := by
  constructor
  · exact resolveDist_eq_find items
  · intro hmiss
    have h0 : resolveDist items = none := resolveDist_eq_none items hmiss
    have hE : strTruthy (some arn) = true := strTruthy_some_true arn hne
    constructor <;> simp [runScript, hc, hE, hl, h0]

/-- A world whose listing holds no entry with the target comment. -/
def noMatchWorld : World :=
  { certArn := some "arn:aws:acm:us-east-1:123456789012:certificate/abc",
    listResult := Except.ok [⟨"E999", "another distribution"⟩],
    fetchResult := Except.ok ([("CallerReference", Json.str "ref-1")], "E_OLD"),
    updateResult := Except.ok Json.null }

/-- Witness for C4 at a concrete world with one non-matching entry. -/
theorem resolver_first_match_and_miss_witness :
    (noMatchWorld.certArn = some "arn:aws:acm:us-east-1:123456789012:certificate/abc" ∧
     "arn:aws:acm:us-east-1:123456789012:certificate/abc" ≠ "" ∧
     noMatchWorld.listResult = Except.ok [⟨"E999", "another distribution"⟩]) ∧
    (resolveDist [⟨"E999", "another distribution"⟩] =
      (([⟨"E999", "another distribution"⟩] : List DistSummary).find?
          (fun d => d.Comment == DISTRIBUTION_COMMENT)).map DistSummary.Id ∧
     ((∀ d ∈ ([⟨"E999", "another distribution"⟩] : List DistSummary),
         d.Comment ≠ DISTRIBUTION_COMMENT) →
       (runScript noMatchWorld).exitCode = 1 ∧
       (runScript noMatchWorld).calls = [Call.listDistributions])) :=
  ⟨⟨rfl, by decide, rfl⟩,
   resolver_first_match_and_miss noMatchWorld
     "arn:aws:acm:us-east-1:123456789012:certificate/abc"
     [⟨"E999", "another distribution"⟩] rfl (by decide) rfl⟩

-- Helper: a non-empty string is not isEmpty (the dist_id truthiness
-- guard on source line 40).
theorem isEmpty_false_of_ne (s : String) (h : s ≠ "") : s.isEmpty = false := by
  rw [Bool.eq_false_iff]
  intro hT
  exact h ((String.isEmpty_iff s).mp hT)

/-- C6: whenever the run reaches the write-back, the update call is
issued with the distribution identifier returned by the resolver and,
as its if-match precondition, exactly the ETag returned by the
configuration fetch, unmodified — and this is the full call trace. -/
theorem update_call_uses_id_and_etag (w : World) (arn id etag : String)
    (items : List DistSummary) (config : List (String × Json))
    (hc : w.certArn = some arn) (hne : arn ≠ "")
    (hl : w.listResult = Except.ok items)
    (hid : resolveDist items = some id) (hidne : id ≠ "")
    (hf : w.fetchResult = Except.ok (config, etag)) :
    (runScript w).calls =
      [Call.listDistributions, Call.getDistributionConfig id,
       Call.updateDistribution id ("file://" ++ TEMP_PATH) etag] := by
  have hE := strTruthy_some_true arn hne
  have hId := isEmpty_false_of_ne id hidne
  rcases hu : w.updateResult with e | u
  · cases e <;> simp [runScript, hc, hE, hl, hid, hId, hf, hu]
  · rcases hr : report u DOMAIN_NAMES with ⟨ls, oe⟩
    cases oe <;> simp [runScript, hc, hE, hl, hid, hId, hf, hu, hr]

/-- The scenario world of the spec: one matching distribution "E123",
ETag "E_OLD", a well-formed update response. -/
def scenarioWorld : World :=
  { certArn := some "arn:aws:acm:us-east-1:123456789012:certificate/abc",
    listResult := Except.ok [⟨"E123", "sharespace frontend distribution"⟩],
    fetchResult := Except.ok ([("CallerReference", Json.str "ref-1")], "E_OLD"),
    updateResult := Except.ok Json.null }

/-- Witness for C6 at the spec's scenario: id "E123", if-match "E_OLD". -/
theorem update_call_uses_id_and_etag_witness :
    (scenarioWorld.certArn = some "arn:aws:acm:us-east-1:123456789012:certificate/abc" ∧
     "arn:aws:acm:us-east-1:123456789012:certificate/abc" ≠ "" ∧
     scenarioWorld.listResult = Except.ok [⟨"E123", "sharespace frontend distribution"⟩] ∧
     resolveDist [⟨"E123", "sharespace frontend distribution"⟩] = some "E123" ∧
     "E123" ≠ "" ∧
     scenarioWorld.fetchResult =
       Except.ok ([("CallerReference", Json.str "ref-1")], "E_OLD")) ∧
    (runScript scenarioWorld).calls =
      [Call.listDistributions, Call.getDistributionConfig "E123",
       Call.updateDistribution "E123" ("file://" ++ TEMP_PATH) "E_OLD"] :=
  ⟨⟨rfl, by decide, rfl, by decide, by decide, rfl⟩,
   update_call_uses_id_and_etag scenarioWorld
     "arn:aws:acm:us-east-1:123456789012:certificate/abc" "E123" "E_OLD"
     [⟨"E123", "sharespace frontend distribution"⟩]
     [("CallerReference", Json.str "ref-1")]
     rfl (by decide) rfl (by decide) (by decide) rfl⟩

/-- C8: whenever the run reaches the mutation step, the serialized
mutated configuration is written to the fixed temporary path, the
write-back call consumes it from exactly that path, and the file is
still present in the outcome on every path — success or failure of the
update — since the script never removes it. -/
theorem temp_file_written_not_removed (w : World) (arn id etag : String)
    (items : List DistSummary) (config : List (String × Json))
    (hc : w.certArn = some arn) (hne : arn ≠ "")
    (hl : w.listResult = Except.ok items)
    (hid : resolveDist items = some id) (hidne : id ≠ "")
    (hf : w.fetchResult = Except.ok (config, etag)) :
    TEMP_PATH = "/tmp/dist-config-updated.json" ∧
    (runScript w).tempFile = some (mutateConfig config arn DOMAIN_NAMES) ∧
    Call.updateDistribution id ("file://" ++ TEMP_PATH) etag ∈ (runScript w).calls := by
  have hE := strTruthy_some_true arn hne
  have hId := isEmpty_false_of_ne id hidne
  refine ⟨rfl, ?_, ?_⟩
  · rcases hu : w.updateResult with e | u
    · cases e <;> simp [runScript, hc, hE, hl, hid, hId, hf, hu]
    · rcases hr : report u DOMAIN_NAMES with ⟨ls, oe⟩
      cases oe <;> simp [runScript, hc, hE, hl, hid, hId, hf, hu, hr]
  · rcases hu : w.updateResult with e | u
    · cases e <;> simp [runScript, hc, hE, hl, hid, hId, hf, hu]
    · rcases hr : report u DOMAIN_NAMES with ⟨ls, oe⟩
      cases oe <;> simp [runScript, hc, hE, hl, hid, hId, hf, hu, hr]

/-- Witness for C8 at the scenario world. -/
theorem temp_file_written_not_removed_witness :
    (scenarioWorld.certArn = some "arn:aws:acm:us-east-1:123456789012:certificate/abc" ∧
     "arn:aws:acm:us-east-1:123456789012:certificate/abc" ≠ "" ∧
     scenarioWorld.listResult = Except.ok [⟨"E123", "sharespace frontend distribution"⟩] ∧
     resolveDist [⟨"E123", "sharespace frontend distribution"⟩] = some "E123" ∧
     "E123" ≠ "" ∧
     scenarioWorld.fetchResult =
       Except.ok ([("CallerReference", Json.str "ref-1")], "E_OLD")) ∧
    (TEMP_PATH = "/tmp/dist-config-updated.json" ∧
     (runScript scenarioWorld).tempFile =
       some (mutateConfig [("CallerReference", Json.str "ref-1")]
         "arn:aws:acm:us-east-1:123456789012:certificate/abc" DOMAIN_NAMES) ∧
     Call.updateDistribution "E123" ("file://" ++ TEMP_PATH) "E_OLD" ∈
       (runScript scenarioWorld).calls) :=
  ⟨⟨rfl, by decide, rfl, by decide, by decide, rfl⟩,
   temp_file_written_not_removed scenarioWorld
     "arn:aws:acm:us-east-1:123456789012:certificate/abc" "E123" "E_OLD"
     [⟨"E123", "sharespace frontend distribution"⟩]
     [("CallerReference", Json.str "ref-1")]
     rfl (by decide) rfl (by decide) (by decide) rfl⟩

/-- A world whose listing call fails as a CalledProcessError whose
captured standard-error stream is "AccessDenied". -/
def listFailWorld : World :=
  { certArn := some "arn:a",
    listResult := Except.error (PyErr.calledProcess "aws" 254 "AccessDenied"),
    fetchResult := Except.ok ([("CallerReference", Json.str "ref-1")], "E_OLD"),
    updateResult := Except.ok Json.null }

set_option maxRecDepth 8000 in
/-- Counterexample to C7 as stated: at a failing listing call the run
does exit with code 1, but the captured error stream ("AccessDenied")
appears in no printed line — the handler prints str(e), the generic
CalledProcessError message, not e.stderr. -/
theorem list_error_stderr_not_printed :
    (runScript listFailWorld).exitCode = 1 ∧
    ∀ line ∈ (runScript listFailWorld).output,
      ¬ "AccessDenied".toList <:+: line.toList := by
  decide

/-- C7 amended: on a transport/service error at any of the three
network calls the run fails immediately with exit code 1 and the trace
stops at the failed call (each call issued once, none retried); the
captured error stream is printed only for the update call, while for
the listing and fetch calls the printed line carries str(e), the
exception display. -/
theorem error_exit_no_retry (w : World) (arn : String)
    (hc : w.certArn = some arn) (hne : arn ≠ "") :
    (∀ e, w.listResult = Except.error e →
      (runScript w).exitCode = 1 ∧
      (runScript w).calls = [Call.listDistributions] ∧
      (runScript w).output.getLast? =
        some ("❌ Error listing distributions: " ++ e.toStr)) ∧
    (∀ e items id, w.listResult = Except.ok items →
      resolveDist items = some id → id ≠ "" →
      w.fetchResult = Except.error e →
      (runScript w).exitCode = 1 ∧
      (runScript w).calls =
        [Call.listDistributions, Call.getDistributionConfig id] ∧
      (runScript w).output.getLast? =
        some ("❌ Error getting distribution config: " ++ e.toStr)) ∧
    (∀ cmd rc se items id config etag, w.listResult = Except.ok items →
      resolveDist items = some id → id ≠ "" →
      w.fetchResult = Except.ok (config, etag) →
      w.updateResult = Except.error (PyErr.calledProcess cmd rc se) →
      (runScript w).exitCode = 1 ∧
      (runScript w).calls =
        [Call.listDistributions, Call.getDistributionConfig id,
         Call.updateDistribution id ("file://" ++ TEMP_PATH) etag] ∧
      (runScript w).output.getLast? =
        some ("❌ Error updating distribution: " ++ se)) := by
  have hE := strTruthy_some_true arn hne
  refine ⟨?_, ?_, ?_⟩
  · intro e hl
    simp [runScript, hc, hE, hl]
  · intro e items id hl hid hidne hf
    have hId := isEmpty_false_of_ne id hidne
    simp [runScript, hc, hE, hl, hid, hId, hf]
  · intro cmd rc se items id config etag hl hid hidne hf hu
    have hId := isEmpty_false_of_ne id hidne
    simp [runScript, hc, hE, hl, hid, hId, hf, hu]

/-- Witness for the amended C7, at the failing-listing world. -/
theorem error_exit_no_retry_witness :
    (listFailWorld.certArn = some "arn:a" ∧ "arn:a" ≠ "" ∧
     listFailWorld.listResult =
       Except.error (PyErr.calledProcess "aws" 254 "AccessDenied")) ∧
    ((runScript listFailWorld).exitCode = 1 ∧
     (runScript listFailWorld).calls = [Call.listDistributions] ∧
     (runScript listFailWorld).output.getLast? =
       some ("❌ Error listing distributions: " ++
         (PyErr.calledProcess "aws" 254 "AccessDenied").toStr)) :=
  ⟨⟨rfl, by decide, rfl⟩,
   (error_exit_no_retry listFailWorld "arn:a" rfl (by decide)).1
     (PyErr.calledProcess "aws" 254 "AccessDenied") rfl⟩

/-- A world where the update call itself succeeds but its response
document lacks the expected "Distribution" field. -/
def emptyRespWorld : World :=
  { certArn := some "arn:aws:acm:us-east-1:123456789012:certificate/abc",
    listResult := Except.ok [⟨"E123", "sharespace frontend distribution"⟩],
    fetchResult := Except.ok ([("CallerReference", Json.str "ref-1")], "E_OLD"),
    updateResult := Except.ok (Json.obj []) }

/-- C10: exit code 1 does not imply the remote update was not applied.
In this world the update call is issued and succeeds (its result is a
parsed, well-formed but field-less document), yet the post-success
reporting fails on the missing "Distribution" key, the generic handler
runs, and the run exits 1 — after the remote mutation already happened. -/
theorem exit1_despite_remote_update :
    emptyRespWorld.updateResult = Except.ok (Json.obj []) ∧
    Call.updateDistribution "E123" ("file://" ++ TEMP_PATH) "E_OLD" ∈
      (runScript emptyRespWorld).calls ∧
    (runScript emptyRespWorld).exitCode = 1 ∧
    (runScript emptyRespWorld).output.getLast? =
      some "❌ Error: 'Distribution'" := by
  refine ⟨rfl, ?_, rfl, rfl⟩
  decide
